import Mathlib

set_option maxRecDepth 8192

/-
  Verification of src/backend/calculator.py.

  The program is a single Python function

      def add(a, b):
          return a + b

  and a demonstration block guarded by the usual module-name check that
  calls add on four literal pairs and prints one formatted line per call.

  Shallow embedding of the Python fragment the program exercises:
  values are modelled by the inductive type PyVal below, covering the
  value kinds that appear in the specification and its claims: arbitrary
  precision integers, floating-point numbers, text strings, lists, and
  a representative value (None) supporting no addition at all.
  Python floats are modelled by PyFloat: NaN, the two signed infinities,
  and finite values carried as exact rationals.  Finite float addition
  is modelled exactly (without IEEE rounding, and without silent
  overflow of a finite sum to an infinity); every finite float sum
  appearing in the specification and in the driver is exactly
  representable as an IEEE double, so the exact model agrees with the
  code on all of them, and the NaN/infinity structure that the claims
  hinge on is modelled in full.

  The error structure of the + operator is modelled in full: CPython
  raises TypeError on an unsupported operand pair, and it raises
  OverflowError (int too large to convert to float) when mixed
  int/float addition converts an integer operand whose magnitude is at
  least 2 ^ 1024 - 2 ^ 970 (the smallest magnitude whose
  round-to-nearest double would be 2 ^ 1024, beyond the largest double
  2 ^ 1024 - 2 ^ 971).  Float-with-float addition never raises in
  CPython (a finite sum beyond double range silently becomes an
  infinity), so these two are the only error paths of the program.
-/

/-- Model of a Python float: NaN, signed infinities, and finite values
carried as exact rationals (the sign of the Bool in inf is true for
negative infinity). -/
inductive PyFloat where
  | nan : PyFloat
  | inf : Bool → PyFloat
  | fin : ℚ → PyFloat
deriving DecidableEq, Repr

/-- Model of a Python runtime value, covering the value kinds relevant
to the program and its specification. -/
inductive PyVal where
  | int : Int → PyVal
  | float : PyFloat → PyVal
  | str : String → PyVal
  | list : List PyVal → PyVal
  | noneV : PyVal

/-- Python runtime error raised by the + operator: a TypeError carrying
the two operand type names for an unsupported operand pair, or an
OverflowError when an integer operand of a mixed int/float addition is
too large to convert to float (the exact message texts are not
modelled). -/
inductive PyErr where
  | typeError : String → String → PyErr
  | overflowError : PyErr
deriving DecidableEq, Repr

/-- The Python type name of a value, as reported in TypeError messages. -/
def typeName : PyVal → String
  | .int _ => "int"
  | .float _ => "float"
  | .str _ => "str"
  | .list _ => "list"
  | .noneV => "NoneType"

/-- Python float addition: NaN is absorbing; opposite infinities give
NaN; an infinity absorbs any finite value; finite values add as exact
rationals (see the header comment on rounding). -/
def floatAdd : PyFloat → PyFloat → PyFloat
  | .nan, _ => .nan
  | _, .nan => .nan
  | .inf s, .inf t => if s = t then .inf s else .nan
  | .inf s, .fin _ => .inf s
  | .fin _, .inf t => .inf t
  | .fin p, .fin q => .fin (p + q)

/-- Whether an integer converts to a double without overflow.  The
largest double is 2 ^ 1024 - 2 ^ 971; CPython converts by rounding to
the nearest double (ties to even), so the smallest overflowing
magnitude is the midpoint 2 ^ 1024 - 2 ^ 970, which rounds up to
2 ^ 1024. -/
def intFitsDouble (n : Int) : Bool :=
  n.natAbs < 2 ^ 1024 - 2 ^ 970

/-- The int-to-float conversion performed by mixed int/float addition:
an integer within double range converts (its value kept exact in the
model, see the header comment on rounding); an integer beyond double
range raises OverflowError (int too large to convert to float). -/
def intToFloat (n : Int) : Except PyErr PyFloat :=
  match intFitsDouble n with
  | true => .ok (.fin (n : ℚ))
  | false => .error .overflowError

/-- The Python binary + operator on the modelled values: integer
addition on int pairs; float addition with int-to-float promotion when
either operand is a float, raising OverflowError when the integer
operand is beyond double range; concatenation on str pairs and on list
pairs; TypeError on every other pair. -/
def pyAdd : PyVal → PyVal → Except PyErr PyVal
  | .int n, .int m => .ok (.int (n + m))
  | .int n, .float g =>
    match intToFloat n with
    | .ok f => .ok (.float (floatAdd f g))
    | .error e => .error e
  | .float f, .int m =>
    match intToFloat m with
    | .ok g => .ok (.float (floatAdd f g))
    | .error e => .error e
  | .float f, .float g => .ok (.float (floatAdd f g))
  | .str s, .str t => .ok (.str (s ++ t))
  | .list xs, .list ys => .ok (.list (xs ++ ys))
  | a, b => .error (.typeError (typeName a) (typeName b))

/-- The function add of src/backend/calculator.py: its body is the
single expression a + b. -/
def add (a b : PyVal) : Except PyErr PyVal :=
  pyAdd a b

/-- Python float equality (the == operator restricted to floats): NaN
compares unequal to everything, itself included; infinities compare by
sign; finite values compare as rationals. -/
def floatEq : PyFloat → PyFloat → Bool
  | .fin p, .fin q => p = q
  | .inf s, .inf t => s = t
  | _, _ => false

mutual

/-- The Python == operator on the modelled values: numeric values
compare across int and float by exact value (with NaN unequal to
everything), strings compare by contents, lists compare elementwise,
None equals None, and values of unrelated kinds compare unequal. -/
def pyEq : PyVal → PyVal → Bool
  | .int n, .int m => n = m
  | .int n, .float g => floatEq (.fin (n : ℚ)) g
  | .float f, .int m => floatEq f (.fin (m : ℚ))
  | .float f, .float g => floatEq f g
  | .str s, .str t => s = t
  | .list xs, .list ys => pyEqList xs ys
  | .noneV, .noneV => true
  | _, _ => false

/-- Elementwise Python == on lists of values. -/
def pyEqList : List PyVal → List PyVal → Bool
  | [], [] => true
  | x :: xs, y :: ys => pyEq x y && pyEqList xs ys
  | _, _ => false

end

/-- Python == between the result of a call that may raise and a value:
an error result compares unequal (the comparison never happens). -/
def pyEqResult : Except PyErr PyVal → PyVal → Bool
  | .ok v, w => pyEq v w
  | .error _, _ => false

/-- Whether a value is numeric in the sense of the specification: an
integer or a floating-point number. -/
def isNumeric : PyVal → Bool
  | .int _ => true
  | .float _ => true
  | _ => false

/-- Whether an operand pair supports the Python + operator: both
numeric, both strings, or both lists. -/
def addSupported : PyVal → PyVal → Bool
  | a, b =>
    (isNumeric a && isNumeric b)
      || (match a, b with
          | .str _, .str _ => true
          | .list _, .list _ => true
          | _, _ => false)

/-- Whether a call to add avoids the int-to-float conversion overflow:
only a mixed int/float pair performs a conversion, and it succeeds
exactly when the integer operand fits in a double. -/
def promotionFits : PyVal → PyVal → Bool
  | .int n, .float _ => intFitsDouble n
  | .float _, .int m => intFitsDouble m
  | _, _ => true

/-- The promotion of a numeric value to a float (identity on floats);
defaults to NaN on non-numeric values, where it is never used. -/
def toPyFloat : PyVal → PyFloat
  | .int n => .fin (n : ℚ)
  | .float f => f
  | _ => .nan

/-- Modelled from the spec (section 4.1 Contract): standard numeric
addition semantics on two numeric values: integer addition when both
operands are integers; otherwise both operands promote to
floating-point and add as floats. -/
def addSpec (a b : PyVal) : PyVal :=
  match a, b with
  | .int n, .int m => .int (n + m)
  | _, _ => .float (floatAdd (toPyFloat a) (toPyFloat b))

/-- The Python str conversion of a modelled float, as used by f-string
formatting.  NaN and the infinities print as nan, inf and -inf; a float
with integral value n of magnitude below 10 ^ 16 prints as the decimal
of n followed by a dot and a zero.  Python renders an integral float of
magnitude at least 10 ^ 16 in scientific notation and a non-integral
float by its shortest round-tripping decimal; neither rendering is
modelled (the driver never formats such a value), and the final branch
is an explicit placeholder. -/
def floatStr : PyFloat → String
  | .nan => "nan"
  | .inf false => "inf"
  | .inf true => "-inf"
  | .fin q =>
    if q.den = 1 ∧ q.num.natAbs < 10 ^ 16 then toString q.num ++ ".0"
    else "<unmodelled float repr " ++ toString q.num ++ "/" ++ toString q.den ++ ">"

/-- The Python str conversion of a modelled value, as used by f-string
formatting.  Only int and float values are ever formatted by the
driver; str converts to itself, and the remaining kinds are rendered by
their type name as a placeholder, never used by the program. -/
def pyStr : PyVal → String
  | .int n => toString n
  | .float f => floatStr f
  | .str s => s
  | v => "<unmodelled str of " ++ typeName v ++ ">"

/-- A call to add in an explicit state-passing form.  The body of add
is the single pure expression a + b: it writes nothing to standard
output and mutates nothing, so the world (the list of lines printed so
far) passes through unchanged and the call yields the same result as
the pure function. -/
def addRun (out : List String) (a b : PyVal) :
    List String × Except PyErr PyVal :=
  (out, add a b)

/-- Appending one printed line to standard output. -/
def printLine (out : List String) (s : String) : List String :=
  out ++ [s]

/-- The demonstration block of src/backend/calculator.py in
state-passing form: four calls to add, each followed by one print of
the f-string for that call; an uncaught error would abort the block
with the lines printed so far.  The first print interpolates num1, num2
and the result; the other three embed the operands as literal text and
interpolate only the result. -/
def runMain (out : List String) : List String × Option PyErr :=
  let num1 : PyVal := .int 5
  let num2 : PyVal := .int 3
  match addRun out num1 num2 with
  | (out, .error e) => (out, some e)
  | (out, .ok result) =>
    let out := printLine out
      (pyStr num1 ++ " + " ++ pyStr num2 ++ " = " ++ pyStr result)
    match addRun out (.int 10) (.int 20) with
    | (out, .error e) => (out, some e)
    | (out, .ok r2) =>
      let out := printLine out ("10 + 20 = " ++ pyStr r2)
      match addRun out (.float (.fin 3.5)) (.float (.fin 2.5)) with
      | (out, .error e) => (out, some e)
      | (out, .ok r3) =>
        let out := printLine out ("3.5 + 2.5 = " ++ pyStr r3)
        match addRun out (.int (-5)) (.int 15) with
        | (out, .error e) => (out, some e)
        | (out, .ok r4) =>
          (printLine out ("-5 + 15 = " ++ pyStr r4), none)

/-- Running the module: defining add itself prints nothing; the
demonstration block is guarded by the module-name check and runs only
when the module is executed directly (isMain), not when it is imported. -/
def pyProgram (isMain : Bool) (out : List String) :
    List String × Option PyErr :=
  if isMain then runMain out else (out, none)

/-- Helper: float addition is commutative in the model (the NaN,
infinity and finite cases are each symmetric). -/
theorem floatAdd_comm : ∀ f g, floatAdd f g = floatAdd g f
  | .nan, .nan => rfl
  | .nan, .inf _ => rfl
  | .nan, .fin _ => rfl
  | .inf _, .nan => rfl
  | .fin _, .nan => rfl
  | .inf s, .inf t => by cases s <;> cases t <;> rfl
  | .inf _, .fin _ => rfl
  | .fin _, .inf _ => rfl
  | .fin p, .fin q => congrArg PyFloat.fin (Rat.add_comm p q)

/-- Helper: the converting branch of intToFloat. -/
theorem intToFloat_fit (n : Int) (h : intFitsDouble n = true) :
    intToFloat n = Except.ok (.fin (n : ℚ)) := by
  simp only [intToFloat, h]

/-- Helper: the overflowing branch of intToFloat. -/
theorem intToFloat_overflow (n : Int) (h : intFitsDouble n = false) :
    intToFloat n = Except.error PyErr.overflowError := by
  simp only [intToFloat, h]

/-- Helper: a call to add succeeds exactly when the operand pair
supports the + operator and no required int-to-float conversion
overflows. -/
theorem add_isOk_characterization (a b : PyVal) :
    (add a b).isOk = (addSupported a b && promotionFits a b) := by
  cases a with
  | int n =>
    cases b with
    | float g =>
      cases h : intFitsDouble n with
      | true => simp only [add, pyAdd, intToFloat_fit n h, addSupported,
          promotionFits, isNumeric, h, Except.isOk, Except.toBool,
          Bool.true_and, Bool.and_true, Bool.true_or, Bool.or_false]
      | false => simp only [add, pyAdd, intToFloat_overflow n h, addSupported,
          promotionFits, isNumeric, h, Except.isOk, Except.toBool,
          Bool.true_and, Bool.and_true, Bool.and_false, Bool.true_or,
          Bool.or_false]
    | int m => rfl
    | str s => rfl
    | list xs => rfl
    | noneV => rfl
  | float f =>
    cases b with
    | int m =>
      cases h : intFitsDouble m with
      | true => simp only [add, pyAdd, intToFloat_fit m h, addSupported,
          promotionFits, isNumeric, h, Except.isOk, Except.toBool,
          Bool.true_and, Bool.and_true, Bool.true_or, Bool.or_false]
      | false => simp only [add, pyAdd, intToFloat_overflow m h, addSupported,
          promotionFits, isNumeric, h, Except.isOk, Except.toBool,
          Bool.true_and, Bool.and_true, Bool.and_false, Bool.true_or,
          Bool.or_false]
    | float g => rfl
    | str s => rfl
    | list xs => rfl
    | noneV => rfl
  | str s => cases b <;> rfl
  | list xs => cases b <;> rfl
  | noneV => cases b <;> rfl

/-- Helper: the integer 10 to the power 400 lies beyond double range. -/
theorem pow400_not_fit : intFitsDouble ((10 : Int) ^ 400) = false := by
  norm_num [intFitsDouble]

/-- Helper: adding the float 1.0 to the integer 10 to the power 400
raises OverflowError, as the integer operand is beyond double range. -/
theorem add_pow400_overflow :
    add (.int ((10 : Int) ^ 400)) (.float (.fin 1)) =
      Except.error PyErr.overflowError := by
  simp [add, pyAdd, intToFloat, pow400_not_fit]

/-- C1 counterexample: the numeric pair 10 to the power 400 and the
float 1.0 does not return a sum at all: the int-to-float conversion of
the mixed addition overflows and the call raises OverflowError, so the
claim that add returns a + b for all numeric inputs fails. -/
theorem C1_overflow_counterexample :
    isNumeric (.int ((10 : Int) ^ 400)) = true ∧
    isNumeric (.float (.fin 1)) = true ∧
    add (.int ((10 : Int) ^ 400)) (.float (.fin 1)) =
      Except.error PyErr.overflowError :=
  ⟨rfl, rfl, add_pow400_overflow⟩

/-- C1 amended: for all numeric inputs a and b whose required
int-to-float conversion does not overflow (which is every pair except
an integer beyond double range meeting a float), add returns a + b
under standard numeric addition semantics: integer addition when both
operands are integers, and float addition with int-to-float promotion
when either operand is a float. -/
theorem C1_adder_numeric_semantics (a b : PyVal)
    (ha : isNumeric a = true) (hb : isNumeric b = true)
    (hfit : promotionFits a b = true) :
    add a b = Except.ok (addSpec a b) := by
  cases a with
  | int n =>
    cases b with
    | int m => rfl
    | float g =>
      simp only [promotionFits] at hfit
      simp [add, pyAdd, intToFloat, hfit, addSpec, toPyFloat]
    | str s => simp [isNumeric] at hb
    | list xs => simp [isNumeric] at hb
    | noneV => simp [isNumeric] at hb
  | float f =>
    cases b with
    | int m =>
      simp only [promotionFits] at hfit
      simp [add, pyAdd, intToFloat, hfit, addSpec, toPyFloat]
    | float g => rfl
    | str s => simp [isNumeric] at hb
    | list xs => simp [isNumeric] at hb
    | noneV => simp [isNumeric] at hb
  | str s => simp [isNumeric] at ha
  | list xs => simp [isNumeric] at ha
  | noneV => simp [isNumeric] at ha

/-- C1 witness: the theorem instantiated at the mixed pair 2 and NaN,
where the conversion of 2 fits. -/
theorem C1_adder_numeric_semantics_witness :
    isNumeric (.int 2) = true ∧ isNumeric (.float .nan) = true ∧
      promotionFits (.int 2) (.float .nan) = true ∧
      add (.int 2) (.float .nan) = Except.ok (addSpec (.int 2) (.float .nan)) :=
  ⟨rfl, rfl, by decide,
    C1_adder_numeric_semantics (.int 2) (.float .nan) rfl rfl (by decide)⟩

/-- C2: the four fixed evaluations of the driver give exactly 8, 30,
6.0 and 10 under Python equality. -/
theorem C2_fixed_examples :
    pyEqResult (add (.int 5) (.int 3)) (.int 8) = true ∧
    pyEqResult (add (.int 10) (.int 20)) (.int 30) = true ∧
    pyEqResult (add (.float (.fin 3.5)) (.float (.fin 2.5)))
      (.float (.fin 6.0)) = true ∧
    pyEqResult (add (.int (-5)) (.int 15)) (.int 10) = true := by
  refine ⟨rfl, rfl, ?_, rfl⟩
  simp only [add, pyAdd, floatAdd, pyEqResult, pyEq, floatEq, decide_eq_true_eq]
  norm_num

/-- C3 counterexample: at a = NaN and b = 0 both call orders return
NaN, and Python equality on NaN is False, so Adder(a, b) == Adder(b, a)
fails for this numeric pair. -/
theorem C3_commutativity_counterexample :
    add (.float .nan) (.int 0) = Except.ok (.float .nan) ∧
    add (.int 0) (.float .nan) = Except.ok (.float .nan) ∧
    pyEq (.float .nan) (.float .nan) = false :=
  ⟨rfl, rfl, rfl⟩

/-- C3 amended: for all numeric a and b, add a b and add b a return
identical values (Python == between the two results can still be False
when that common value is NaN). -/
theorem C3_commutativity_of_values (a b : PyVal)
    (ha : isNumeric a = true) (hb : isNumeric b = true) :
    add a b = add b a := by
  cases a with
  | int n =>
    cases b with
    | int m => simp [add, pyAdd, Int.add_comm]
    | float g =>
      cases h : intFitsDouble n with
      | true => simp only [add, pyAdd, intToFloat_fit n h, floatAdd_comm]
      | false => simp only [add, pyAdd, intToFloat_overflow n h]
    | str s => simp [isNumeric] at hb
    | list xs => simp [isNumeric] at hb
    | noneV => simp [isNumeric] at hb
  | float f =>
    cases b with
    | int m =>
      cases h : intFitsDouble m with
      | true => simp only [add, pyAdd, intToFloat_fit m h, floatAdd_comm]
      | false => simp only [add, pyAdd, intToFloat_overflow m h]
    | float g => simp [add, pyAdd, floatAdd_comm]
    | str s => simp [isNumeric] at hb
    | list xs => simp [isNumeric] at hb
    | noneV => simp [isNumeric] at hb
  | str s => simp [isNumeric] at ha
  | list xs => simp [isNumeric] at ha
  | noneV => simp [isNumeric] at ha

/-- C3 witness: commutativity of values instantiated at 2 and 3. -/
theorem C3_commutativity_of_values_witness :
    isNumeric (.int 2) = true ∧ isNumeric (.int 3) = true ∧
      add (.int 2) (.int 3) = add (.int 3) (.int 2) :=
  ⟨rfl, rfl, C3_commutativity_of_values (.int 2) (.int 3) rfl rfl⟩

/-- C4 counterexample: at the numeric value a = NaN, add a 0 returns
NaN and Python equality on NaN is False, so Adder(a, 0) == a fails. -/
theorem C4_identity_counterexample :
    add (.float .nan) (.int 0) = Except.ok (.float .nan) ∧
    pyEqResult (add (.float .nan) (.int 0)) (.float .nan) = false :=
  ⟨rfl, rfl⟩

/-- C4 amended: for every numeric a other than NaN,
Adder(a, 0) == a holds. -/
theorem C4_identity_nonnan (a : PyVal) (ha : isNumeric a = true)
    (hn : a ≠ PyVal.float PyFloat.nan) :
    pyEqResult (add a (.int 0)) a = true := by
  cases a with
  | int n => simp [add, pyAdd, pyEqResult, pyEq]
  | float f =>
    have h0 : intToFloat 0 = Except.ok (.fin ((0 : Int) : ℚ)) := by
      norm_num [intToFloat, intFitsDouble]
    cases f with
    | nan => exact absurd rfl hn
    | inf s => simp [add, pyAdd, h0, floatAdd, pyEqResult, pyEq, floatEq]
    | fin q => simp [add, pyAdd, h0, floatAdd, pyEqResult, pyEq, floatEq]
  | str s => simp [isNumeric] at ha
  | list xs => simp [isNumeric] at ha
  | noneV => simp [isNumeric] at ha

/-- C4 witness: the identity instantiated at the integer 7. -/
theorem C4_identity_nonnan_witness :
    isNumeric (.int 7) = true ∧ (PyVal.int 7 ≠ PyVal.float PyFloat.nan) ∧
      pyEqResult (add (.int 7) (.int 0)) (.int 7) = true :=
  ⟨rfl, fun h => PyVal.noConfusion h,
    C4_identity_nonnan (.int 7) rfl (fun h => PyVal.noConfusion h)⟩

/-- C5 counterexample: the operand "ab" is not numeric, yet the call
add "ab" "cd" succeeds (returning the concatenation), so it is not the
case that every call with a non-numeric operand fails. -/
theorem C5_nonnumeric_counterexample :
    isNumeric (.str "ab") = false ∧
    add (.str "ab") (.str "cd") = Except.ok (.str "abcd") :=
  ⟨rfl, rfl⟩

/-- C5 amended: a call to add fails exactly when the operand pair does
not support the + operator or a required int-to-float conversion
overflows; every failure is either a TypeError naming the two operand
types or an OverflowError, propagated to the caller as the error
result; in particular a string paired with a number fails with a
TypeError, and an integer beyond double range paired with a float fails
with an OverflowError. -/
theorem C5_failure_characterization :
    (∀ a b, (add a b).isOk = (addSupported a b && promotionFits a b)) ∧
    (∀ a b, (∃ v, add a b = Except.ok v) ∨
      add a b = Except.error (.typeError (typeName a) (typeName b)) ∨
      add a b = Except.error PyErr.overflowError) ∧
    add (.str "ab") (.int 1) = Except.error (.typeError "str" "int") ∧
    add (.int ((10 : Int) ^ 400)) (.float (.fin 1)) =
      Except.error PyErr.overflowError := by
  refine ⟨add_isOk_characterization, ?_, rfl, add_pow400_overflow⟩
  intro a b
  cases a with
  | int n =>
    cases b with
    | float g =>
      cases h : intFitsDouble n with
      | true => exact .inl ⟨.float (floatAdd (.fin (n : ℚ)) g),
          by simp only [add, pyAdd, intToFloat_fit n h]⟩
      | false => exact .inr (.inr
          (by simp only [add, pyAdd, intToFloat_overflow n h]))
    | int m => exact .inl ⟨_, rfl⟩
    | str s => exact .inr (.inl rfl)
    | list xs => exact .inr (.inl rfl)
    | noneV => exact .inr (.inl rfl)
  | float f =>
    cases b with
    | int m =>
      cases h : intFitsDouble m with
      | true => exact .inl ⟨.float (floatAdd f (.fin (m : ℚ))),
          by simp only [add, pyAdd, intToFloat_fit m h]⟩
      | false => exact .inr (.inr
          (by simp only [add, pyAdd, intToFloat_overflow m h]))
    | float g => exact .inl ⟨_, rfl⟩
    | str s => exact .inr (.inl rfl)
    | list xs => exact .inr (.inl rfl)
    | noneV => exact .inr (.inl rfl)
  | str s => cases b <;> first | exact .inl ⟨_, rfl⟩ | exact .inr (.inl rfl)
  | list xs => cases b <;> first | exact .inl ⟨_, rfl⟩ | exact .inr (.inl rfl)
  | noneV => cases b <;> exact .inr (.inl rfl)

/-- C6: starting from an empty standard output, the driver writes
exactly the four lines 5 + 3 = 8, 10 + 20 = 30, 3.5 + 2.5 = 6.0 and
-5 + 15 = 10, in that order, and raises no error. -/
theorem C6_driver_output :
    runMain [] =
      (["5 + 3 = 8", "10 + 20 = 30", "3.5 + 2.5 = 6.0", "-5 + 15 = 10"],
        none) := by
  have h : (3.5 : ℚ) + 2.5 = 6 := by norm_num
  simp only [runMain, addRun, add, pyAdd, floatAdd, printLine, pyStr, floatStr, h]
  rfl

/-- C7: when the module is imported rather than executed directly, the
demonstration block does not run: standard output is unchanged and no
error is raised. -/
theorem C7_import_runs_nothing (out : List String) :
    pyProgram false out = (out, none) :=
  rfl

/-- C8: a call to add leaves the world unchanged (it prints nothing and
mutates nothing) and its result is exactly the value of the pure
function of its two arguments. -/
theorem C8_add_no_side_effects (out : List String) (a b : PyVal) :
    (addRun out a b).1 = out ∧ (addRun out a b).2 = add a b :=
  ⟨rfl, rfl⟩

/-- C9: integer addition in add is exact and arbitrary-precision: the
result is the mathematical sum for all integers, with no wraparound at
any magnitude, e.g. at operands around 2 to the power 200. -/
theorem C9_integer_addition_exact :
    (∀ a b : Int, add (.int a) (.int b) = Except.ok (.int (a + b))) ∧
    add (.int (2 ^ 200)) (.int (2 ^ 200 + 1)) =
      Except.ok (.int (2 ^ 201 + 1)) := by
  refine ⟨fun a b => rfl, ?_⟩
  simp only [add, pyAdd, Except.ok.injEq, PyVal.int.injEq]
  ring

/-- C10 counterexample: an unsupported operand pair is not the exact
failure condition of add: the pair of 10 to the power 400 and the float
1.0 supports the + operator (both operands are numeric), yet the call
fails with OverflowError on the int-to-float conversion. -/
theorem C10_supported_pair_failure :
    addSupported (.int ((10 : Int) ^ 400)) (.float (.fin 1)) = true ∧
    add (.int ((10 : Int) ^ 400)) (.float (.fin 1)) =
      Except.error PyErr.overflowError :=
  ⟨rfl, add_pow400_overflow⟩

/-- C10 amended: operand pairs that support + succeed even when
non-numeric: two strings concatenate (in particular add "ab" "cd"
returns "abcd") and two lists concatenate, without any error; an
operand being non-numeric is therefore not the failure condition, and
a call fails exactly when the pair does not support + or a required
int-to-float conversion overflows. -/
theorem C10_concatenation_support :
    (∀ s t, add (.str s) (.str t) = Except.ok (.str (s ++ t))) ∧
    (∀ xs ys, add (.list xs) (.list ys) = Except.ok (.list (xs ++ ys))) ∧
    add (.str "ab") (.str "cd") = Except.ok (.str "abcd") ∧
    (∀ a b, (add a b).isOk = (addSupported a b && promotionFits a b)) :=
  ⟨fun _ _ => rfl, fun _ _ => rfl, rfl, add_isOk_characterization⟩
